import Mathlib

/-!
Verification of the AEOS_Infographics chart/animation pipeline.

Shallow embedding of the repository's Python sources:
  * `streamlit_env/components/presentation_animator.py`
    (`easing_function`, `create_animated_visualization`,
     `generate_video_from_frames`),
  * `Include/components/visualization.py` (`create_advanced_visualization`),
  * `Include/utils/ai_helpers.py` (`clean_and_parse_json`) together with the
    response handling of `Include/components/insights.py` (`generate_insights`),
  * `streamlit_env/utils/data_processing.py` (`load_data`) and its consumer in
    `streamlit_env/main.py` (the "Process File Upload" handler).

Numbers are modelled by `ℚ` (the Python code computes with exact small
values; every concrete input used below is exactly representable), Python
exceptions by `Option`/`Except`, pandas data frames by association lists of
named columns.
-/

namespace AEOS

/-- A cell of a pandas column: either a numeric value or a string.
Arithmetic on string cells raises in Python (numpy `TypeError`) and is
modelled by `cellsToNum` returning `none`. -/
inductive Cell where
  | num (q : ℚ)
  | str (s : String)
deriving DecidableEq, Inhabited

/-- A pandas `DataFrame`, as used by the chart/animation code: an ordered
list of named columns. -/
structure DataFrame where
  cols : List (String × List Cell)
deriving DecidableEq, Inhabited

/-- `df[name]`: column lookup; a missing column raises `KeyError` in Python,
modelled by `none`. -/
def DataFrame.get (df : DataFrame) (name : String) : Option (List Cell) :=
  (df.cols.find? (fun p => p.1 = name)).map (·.2)

/-- Whether a column name is present (`name in df.columns`). -/
def DataFrame.hasCol (df : DataFrame) (name : String) : Bool :=
  (df.cols.find? (fun p => p.1 = name)).isSome

/-- numpy arithmetic on a column: succeeds only when every cell is numeric
(`TypeError` on string cells, modelled by `none`). -/
def cellsToNum : List Cell → Option (List ℚ)
  | [] => some []
  | Cell.num q :: cs => (cellsToNum cs).map (q :: ·)
  | Cell.str _ :: _ => none

/-- Python's builtin `max` over a sequence; raises `ValueError` on an empty
sequence, modelled by `none`. -/
def listMax : List ℚ → Option ℚ
  | [] => none
  | [q] => some q
  | q :: q2 :: qs => (listMax (q2 :: qs)).map (fun m => max q m)

/-- Python `int(...)` applied to a (here: rational) number: truncation
toward zero (`Int.tdiv` truncates toward zero, and the denominator of a
`ℚ` is positive). -/
def pyTrunc (q : ℚ) : ℤ :=
  q.num.tdiv (q.den : ℤ)

/-- `easing_function` from `presentation_animator.py`, verbatim:
`return t**3 if t < 0.5 else 1 - (-2 * t + 2)**3 / 2`. -/
def easing_function (t : ℚ) : ℚ :=
  if t < 1/2 then t^3 else 1 - (-2 * t + 2)^3 / 2

/-- `px.colors.sequential.Blues` (plotly), used by the `basic_bar`
animation branch. -/
def Blues : List String :=
  ["rgb(247,251,255)", "rgb(222,235,247)", "rgb(198,219,239)",
   "rgb(158,202,225)", "rgb(107,174,214)", "rgb(66,146,198)",
   "rgb(33,113,181)", "rgb(8,81,156)", "rgb(8,48,107)"]

/-- `px.colors.qualitative.Set2` (plotly), used by the `pie` animation
branch. -/
def Set2 : List String :=
  ["rgb(102,194,165)", "rgb(252,141,98)", "rgb(141,160,203)",
   "rgb(231,138,195)", "rgb(166,216,84)", "rgb(255,217,47)",
   "rgb(229,196,148)", "rgb(179,179,179)"]

/-- The `viz_config` dictionary handed to `create_animated_visualization`.
Absent keys raise `KeyError` on access in Python, hence `Option` fields. -/
structure VizConfig where
  type : String
  title : String
  x : Option String := none
  y : Option String := none
  labels : Option String := none
  values : Option String := none
  stack_columns : Option (List String) := none
  group_columns : Option (List String) := none
deriving DecidableEq, Inhabited

/-- One `plotly.graph_objects` trace of an animation frame, restricted to
the constructors and attributes the animator actually sets. -/
inductive AnimTrace where
  | bar (x : List Cell) (y : List ℚ) (colors : List String) (opacity : ℚ)
  | multiBar (name : String) (x : List Cell) (y : List ℚ) (opacity : ℚ)
  | scatterTrace (x : List Cell) (y : List ℚ) (mode : String)
      (markerSize : ℚ) (markerOpacity : ℚ)
  | pieTrace (labels : List Cell) (values : List ℚ) (textinfo : String)
      (colors : List String)
deriving DecidableEq, Inhabited

/-- The layout attributes set by `fig.update_layout` in the animator. -/
structure Layout where
  title : String
  xtitle : Option String := none
  barmode : Option String := none
  yrange : Option (ℚ × ℚ) := none
deriving DecidableEq, Inhabited

/-- A `go.Figure` built by the animator: its traces and layout. -/
structure GoFigure where
  data : List AnimTrace
  layout : Layout
deriving DecidableEq, Inhabited

/-- `pd.Series.unique()`: distinct values in first-occurrence order. -/
def uniqueFirst : List Cell → List Cell
  | [] => []
  | a :: l => a :: uniqueFirst (l.filter (fun b => b ≠ a))
termination_by l => l.length
decreasing_by
  simp only [List.length_cons]
  exact Nat.lt_succ_of_le (List.length_filter_le _ _)

/-- Elementwise sum of two columns, padding the shorter with zeros (the
row-wise `sum(axis=1)` accumulator). -/
def addVecPad : List ℚ → List ℚ → List ℚ
  | [], ys => ys
  | x :: xs, [] => x :: xs
  | x :: xs, y :: ys => (x + y) :: addVecPad xs ys

/-- `np.cumsum`. -/
def cumsum (l : List ℚ) : List ℚ :=
  (l.scanl (· + ·) 0).tail

/-- The frame loop of `create_animated_visualization`: build frame `i` for
each `i < n` in order, appending to the accumulated list.  Any exception
(`none` from `mk`) aborts the whole computation — the function's single
`try`/`except` wraps the entire loop, so partial frame lists are discarded. -/
def buildFrames (mk : ℕ → Option GoFigure) : ℕ → Option (List GoFigure)
  | 0 => some []
  | n + 1 => do
      let fs ← buildFrames mk n
      let f ← mk n
      some (fs ++ [f])

/-- The `basic_bar` branch (lines 39-64 of `presentation_animator.py`). -/
def basicBarBranch (df : DataFrame) (cfg : VizConfig) (N : ℕ) :
    Option (List GoFigure) := do
  let yn ← cfg.y
  let y_cells ← df.get yn
  let xn ← cfg.x
  let x_data ← df.get xn
  buildFrames (fun i => do
    let progress := easing_function ((i : ℚ) / (N : ℚ))
    let y_data ← cellsToNum y_cells
    let current_y := y_data.map (· * progress)
    let color_idx := (pyTrunc (progress * ((Blues.length : ℚ) - 1))).toNat
    let current_color ← Blues.get? color_idx
    let ymax ← listMax y_data
    some { data := [AnimTrace.bar x_data current_y
                      (List.replicate x_data.length current_color)
                      (min 1 (progress * (6/5)))],
           layout := { title := cfg.title, xtitle := some xn,
                       yrange := some (0, ymax * (11/10)) } }) N

/-- The `stacked_bar` branch (lines 66-84). -/
def stackedBarBranch (df : DataFrame) (cfg : VizConfig) (N : ℕ) :
    Option (List GoFigure) := do
  let xn ← cfg.x
  let x_cells ← df.get xn
  let categories := uniqueFirst x_cells
  let stack_cols ← cfg.stack_columns
  buildFrames (fun i => do
    let progress := easing_function ((i : ℚ) / (N : ℚ))
    let colsData ← stack_cols.mapM (fun c => do cellsToNum (← df.get c))
    let data := (stack_cols.zip colsData).map (fun p =>
      AnimTrace.multiBar p.1 categories (p.2.map (· * progress))
        (min 1 (progress * (6/5))))
    let rowSums := colsData.foldl addVecPad []
    some { data := data,
           layout := { title := cfg.title, xtitle := some xn,
                       barmode := some "stack",
                       yrange := (listMax rowSums).map
                         (fun m => (0, m * (11/10))) } }) N

/-- The `grouped_bar` branch (lines 86-104). -/
def groupedBarBranch (df : DataFrame) (cfg : VizConfig) (N : ℕ) :
    Option (List GoFigure) := do
  let xn ← cfg.x
  let x_cells ← df.get xn
  let categories := uniqueFirst x_cells
  let group_cols ← cfg.group_columns
  buildFrames (fun i => do
    let progress := easing_function ((i : ℚ) / (N : ℚ))
    let colsData ← group_cols.mapM (fun c => do cellsToNum (← df.get c))
    let data := (group_cols.zip colsData).map (fun p =>
      AnimTrace.multiBar p.1 categories (p.2.map (· * progress))
        (min 1 (progress * (6/5))))
    some { data := data,
           layout := { title := cfg.title, xtitle := some xn,
                       barmode := some "group",
                       yrange := (listMax (colsData.filterMap listMax)).map
                         (fun m => (0, m * (11/10))) } }) N

/-- The `line` branch (lines 106-128). -/
def lineBranch (df : DataFrame) (cfg : VizConfig) (N : ℕ) :
    Option (List GoFigure) := do
  let xn ← cfg.x
  let x_data ← df.get xn
  let yn ← cfg.y
  let y_data_cells ← df.get yn
  buildFrames (fun i => do
    let progress := easing_function ((i : ℚ) / (N : ℚ))
    let points_to_show :=
      max 2 (pyTrunc ((x_data.length : ℚ) * progress)).toNat
    let y_data ← cellsToNum y_data_cells
    let ymax ← listMax y_data
    some { data := [AnimTrace.scatterTrace (x_data.take points_to_show)
                      (y_data.take points_to_show) "lines+markers" 8 progress],
           layout := { title := cfg.title, xtitle := some xn,
                       yrange := some (0, ymax * (11/10)) } }) N

/-- The `scatter` branch (lines 130-151). -/
def scatterBranch (df : DataFrame) (cfg : VizConfig) (N : ℕ) :
    Option (List GoFigure) := do
  let xn ← cfg.x
  let x_data ← df.get xn
  let yn ← cfg.y
  let y_data_cells ← df.get yn
  buildFrames (fun i => do
    let progress := easing_function ((i : ℚ) / (N : ℚ))
    let points_to_show :=
      max 2 (pyTrunc ((x_data.length : ℚ) * progress)).toNat
    let y_data ← cellsToNum y_data_cells
    let ymax ← listMax y_data
    some { data := [AnimTrace.scatterTrace (x_data.take points_to_show)
                      (y_data.take points_to_show) "markers" 10 progress],
           layout := { title := cfg.title, xtitle := some xn,
                       yrange := some (0, ymax * (11/10)) } }) N

/-- The `pie` branch (lines 153-171); `np.cumsum` on the values column
happens before the loop and raises on non-numeric data. -/
def pieBranch (df : DataFrame) (cfg : VizConfig) (N : ℕ) :
    Option (List GoFigure) := do
  let vn ← cfg.values
  let values_cells ← df.get vn
  let ln ← cfg.labels
  let labels ← df.get ln
  let values ← cellsToNum values_cells
  let frame_step := (cumsum values).map (· / (N : ℚ))
  buildFrames (fun i =>
    some { data := [AnimTrace.pieTrace labels
                      (List.zipWith min values (frame_step.map (· * ((i : ℚ) + 1))))
                      (if (i : ℚ) < (N : ℚ) * (8/10) then "none"
                       else "label+percent")
                      Set2],
           layout := { title := cfg.title } }) N

/-- The body of `create_animated_visualization` inside its `try`: dispatch
on `viz_config['type']`.  A type matching none of the six branches leaves
`frames` empty and returns it normally (`some []`), which is not an
exception. -/
def animBody (df : DataFrame) (cfg : VizConfig) (N : ℕ) :
    Option (List GoFigure) :=
  if cfg.type = "basic_bar" then basicBarBranch df cfg N
  else if cfg.type = "stacked_bar" then stackedBarBranch df cfg N
  else if cfg.type = "grouped_bar" then groupedBarBranch df cfg N
  else if cfg.type = "line" then lineBranch df cfg N
  else if cfg.type = "scatter" then scatterBranch df cfg N
  else if cfg.type = "pie" then pieBranch df cfg N
  else some []

/-- `create_animated_visualization(df, viz_config, duration, fps)`:
`total_frames = duration * fps`; any exception is caught and turned into
the empty list. -/
def create_animated_visualization (df : DataFrame) (cfg : VizConfig)
    (duration fps : ℕ) : List GoFigure :=
  (animBody df cfg (duration * fps)).getD []

/-- Number of data points visible in a frame built by the `line`/`scatter`
branches: the length of the x-vector of its (single) scatter trace. -/
def visiblePoints (fig : GoFigure) : ℕ :=
  match fig.data with
  | AnimTrace.scatterTrace x _ _ _ _ :: _ => x.length
  | _ => 0

/-! ### The chart mapper (`Include/components/visualization.py`) -/

/-- Python `str.title()` on one character list: an alphabetic character is
upper-cased after a non-cased character and lower-cased otherwise
(sufficient for the ASCII column names at issue). -/
def titleAux : Bool → List Char → List Char
  | _, [] => []
  | prevCased, c :: cs =>
    if c.isAlpha then
      (if prevCased then c.toLower else c.toUpper) :: titleAux true cs
    else
      c :: titleAux false cs

/-- Python `str.title()`. -/
def pythonTitle (s : String) : String :=
  ⟨titleAux false s.data⟩

/-- The figure `px.bar` produces, restricted to the attributes the mapper
sets.  `xLabel`/`yLabel` are the effective axis titles: the value from the
`labels` mapping when one is passed, otherwise the raw column name.
`px.bar`'s default `barmode` is `"relative"` (stacking). -/
structure PxBarFigure where
  xCol : String
  yCol : String
  colorCol : Option String := none
  barmode : String := "relative"
  title : String
  xLabel : String
  yLabel : String
deriving DecidableEq, Inhabited

/-- A figure returned by `create_advanced_visualization`. -/
inductive PxFigure where
  | bar (f : PxBarFigure)
  | lineFig (xCol yCol title xLabel yLabel : String)
  | scatterFig (xCol yCol title xLabel yLabel : String)
deriving DecidableEq, Inhabited

/-- The mapper's observable outcome: a figure, or a reported failure
(`st.error` plus `return None`). -/
inductive VizResult where
  | figure (f : PxFigure)
  | failure (msg : String)
deriving DecidableEq, Inhabited

/-- The `config` dictionary of the mapper; `config.get("color")` never
raises, the other keys raise `KeyError` when absent. -/
structure AdvConfig where
  x : Option String := none
  y : Option String := none
  color : Option String := none
  title : Option String := none
deriving DecidableEq, Inhabited

/-- Message of the mapper's `except` handler (`st.error` f-string prefix). -/
def vizErrorMsg : String := "Error creating visualization"

/-- `create_advanced_visualization(df, viz_type, config)` from
`Include/components/visualization.py`.  Any exception inside a branch
(missing config key → `KeyError`, column not in the data frame → `px`
error) is caught and reported as a failure.  `stacked_bar`/`grouped_bar`
test `if color_col:`, which is falsy for both an absent key and an empty
string; the color-less paths call `px.bar` without the `labels` mapping,
so their axis labels stay the raw column names. -/
def create_advanced_visualization (df : DataFrame) (viz_type : String)
    (config : AdvConfig) : VizResult :=
  if viz_type = "basic_bar" then
    match config.x, config.y, config.title with
    | some x, some y, some t =>
      if df.hasCol x ∧ df.hasCol y then
        VizResult.figure (PxFigure.bar
          { xCol := x, yCol := y, title := t,
            xLabel := pythonTitle x, yLabel := pythonTitle y })
      else VizResult.failure vizErrorMsg
    | _, _, _ => VizResult.failure vizErrorMsg
  else if viz_type = "stacked_bar" then
    match config.x, config.y, config.title with
    | some x, some y, some t =>
      if (config.color.getD "") ≠ "" then
        if df.hasCol x ∧ df.hasCol y ∧ df.hasCol (config.color.getD "") then
          VizResult.figure (PxFigure.bar
            { xCol := x, yCol := y, colorCol := config.color, title := t,
              xLabel := pythonTitle x, yLabel := pythonTitle y })
        else VizResult.failure vizErrorMsg
      else
        if df.hasCol x ∧ df.hasCol y then
          VizResult.figure (PxFigure.bar
            { xCol := x, yCol := y, title := t, xLabel := x, yLabel := y })
        else VizResult.failure vizErrorMsg
    | _, _, _ => VizResult.failure vizErrorMsg
  else if viz_type = "grouped_bar" then
    match config.x, config.y, config.title with
    | some x, some y, some t =>
      if (config.color.getD "") ≠ "" then
        if df.hasCol x ∧ df.hasCol y ∧ df.hasCol (config.color.getD "") then
          VizResult.figure (PxFigure.bar
            { xCol := x, yCol := y, colorCol := config.color,
              barmode := "group", title := t,
              xLabel := pythonTitle x, yLabel := pythonTitle y })
        else VizResult.failure vizErrorMsg
      else
        if df.hasCol x ∧ df.hasCol y then
          VizResult.figure (PxFigure.bar
            { xCol := x, yCol := y, title := t, xLabel := x, yLabel := y })
        else VizResult.failure vizErrorMsg
    | _, _, _ => VizResult.failure vizErrorMsg
  else if viz_type = "line" then
    match config.x, config.y, config.title with
    | some x, some y, some t =>
      if df.hasCol x ∧ df.hasCol y then
        VizResult.figure (PxFigure.lineFig x y t (pythonTitle x) (pythonTitle y))
      else VizResult.failure vizErrorMsg
    | _, _, _ => VizResult.failure vizErrorMsg
  else if viz_type = "scatter" then
    match config.x, config.y, config.title with
    | some x, some y, some t =>
      if df.hasCol x ∧ df.hasCol y then
        VizResult.figure (PxFigure.scatterFig x y t (pythonTitle x) (pythonTitle y))
      else VizResult.failure vizErrorMsg
    | _, _, _ => VizResult.failure vizErrorMsg
  else
    VizResult.failure ("Unsupported visualization type: " ++ viz_type)

/-! ### Insight-response parsing (`Include/utils/ai_helpers.py`,
`Include/components/insights.py`) -/

/-- A JSON value. -/
inductive Json where
  | null
  | bool (b : Bool)
  | num (n : ℤ)
  | str (s : String)
  | arr (xs : List Json)
  | obj (kvs : List (String × Json))

/-- Modelled from the spec: `json.loads` is the Python standard library;
this recursive-descent parser covers the JSON fragment the insight code
exchanges (null, booleans, integers, strings with single-character
escapes, arrays, objects), consuming the whole input up to trailing
whitespace exactly as `json.loads` does.  Helper: skip whitespace. -/
def skipWs : List Char → List Char
  | c :: cs =>
    if c = ' ' ∨ c = '\n' ∨ c = '\t' ∨ c = '\r' then skipWs cs else c :: cs
  | [] => []

/-- Body of a JSON string after the opening quote; returns the decoded
string and the rest of the input past the closing quote. -/
def parseStringBody : List Char → Option (String × List Char)
  | [] => none
  | '"' :: rest => some ("", rest)
  | '\\' :: c :: rest => do
    let esc ← match c with
      | '"' => some '"'
      | '\\' => some '\\'
      | '/' => some '/'
      | 'n' => some '\n'
      | 't' => some '\t'
      | 'r' => some '\r'
      | 'b' => some (Char.ofNat 8)
      | 'f' => some (Char.ofNat 12)
      | _ => none
    let sr ← parseStringBody rest
    some (⟨esc :: sr.1.data⟩, sr.2)
  | c :: rest => do
    let sr ← parseStringBody rest
    some (⟨c :: sr.1.data⟩, sr.2)

/-- Split leading decimal digits. -/
def spanDigits : List Char → List Char × List Char
  | [] => ([], [])
  | c :: cs =>
    if c.isDigit then
      let p := spanDigits cs
      (c :: p.1, p.2)
    else ([], c :: cs)

/-- Numeric value of a digit list. -/
def digitsToNat (ds : List Char) : ℕ :=
  ds.foldl (fun a c => 10 * a + (c.toNat - '0'.toNat)) 0

mutual

/-- Parse one JSON value; `fuel` bounds the nesting depth. -/
def parseValue : ℕ → List Char → Option (Json × List Char)
  | 0, _ => none
  | fuel + 1, cs =>
    match skipWs cs with
    | 'n' :: 'u' :: 'l' :: 'l' :: rest => some (Json.null, rest)
    | 't' :: 'r' :: 'u' :: 'e' :: rest => some (Json.bool true, rest)
    | 'f' :: 'a' :: 'l' :: 's' :: 'e' :: rest => some (Json.bool false, rest)
    | '"' :: rest => (parseStringBody rest).map (fun p => (Json.str p.1, p.2))
    | '[' :: rest =>
      (match skipWs rest with
       | ']' :: r2 => some (Json.arr [], r2)
       | cs2 => (parseElems fuel cs2).map (fun p => (Json.arr p.1, p.2)))
    | '\x7b' :: rest =>
      (match skipWs rest with
       | '\x7d' :: r2 => some (Json.obj [], r2)
       | cs2 => (parseMembers fuel cs2).map (fun p => (Json.obj p.1, p.2)))
    | '-' :: cs2 =>
      (match spanDigits cs2 with
       | ([], _) => none
       | (ds, rest) => some (Json.num (-(digitsToNat ds : ℤ)), rest))
    | c :: cs2 =>
      if c.isDigit then
        (match spanDigits (c :: cs2) with
         | (ds, rest) => some (Json.num (digitsToNat ds : ℤ), rest))
      else none
    | [] => none

/-- Parse the elements of a non-empty JSON array, up to and including the
closing bracket. -/
def parseElems : ℕ → List Char → Option (List Json × List Char)
  | 0, _ => none
  | fuel + 1, cs => do
    let vr ← parseValue fuel cs
    match skipWs vr.2 with
    | ',' :: r2 => do
      let er ← parseElems fuel r2
      some (vr.1 :: er.1, er.2)
    | ']' :: r2 => some ([vr.1], r2)
    | _ => none

/-- Parse the members of a non-empty JSON object, up to and including the
closing brace. -/
def parseMembers : ℕ → List Char → Option (List (String × Json) × List Char)
  | 0, _ => none
  | fuel + 1, cs =>
    match skipWs cs with
    | '"' :: rest => do
      let kr ← parseStringBody rest
      match skipWs kr.2 with
      | ':' :: r2 => do
        let vr ← parseValue fuel r2
        match skipWs vr.2 with
        | ',' :: r4 => do
          let mr ← parseMembers fuel r4
          some ((kr.1, vr.1) :: mr.1, mr.2)
        | '\x7d' :: r4 => some ([(kr.1, vr.1)], r4)
        | _ => none
      | _ => none
    | _ => none

end

/-- `json.loads`: parse a complete JSON document (a value followed by at
most whitespace). -/
def jsonLoads (cs : List Char) : Option Json :=
  match parseValue (cs.length + 1) cs with
  | some (j, rest) => if skipWs rest = [] then some j else none
  | none => none

/-- Python `str.find(ch)`: index of the first occurrence, `none` for `-1`. -/
def firstIdx (c : Char) : List Char → Option ℕ
  | [] => none
  | d :: ds => if d = c then some 0 else (firstIdx c ds).map (· + 1)

/-- Python `str.rfind(ch)`: index of the last occurrence, `none` for `-1`. -/
def lastIdx (c : Char) (l : List Char) : Option ℕ :=
  (firstIdx c l.reverse).map (fun i => l.length - 1 - i)

/-- `clean_and_parse_json(response_content)` from `ai_helpers.py`: take the
substring from the first `'\x7b'` to the last `'\x7d'`, parse it as JSON;
raise `ValueError` (modelled by `Except.error`) when either brace is
missing or the JSON parse fails. -/
def clean_and_parse_json (response_content : String) : Except String Json :=
  let cs := response_content.data
  match firstIdx '\x7b' cs, lastIdx '\x7d' cs with
  | some start_idx, some end_idx =>
    let json_str := (cs.drop start_idx).take (end_idx + 1 - start_idx)
    match jsonLoads json_str with
    | some j => Except.ok j
    | none => Except.error "JSON decoding failed"
  | _, _ => Except.error "No JSON object found in the response content."

/-- The response handling of `generate_insights` in
`Include/components/insights.py`: `clean_and_parse_json` is called inside
`try`/`except`, and any raised `ValueError` is turned into `st.error` plus
`return None` — the public interface returns an absent result instead of
propagating the exception. -/
def generate_insights_parse (response_content : String) : Option Json :=
  match clean_and_parse_json response_content with
  | Except.ok j => some j
  | Except.error _ => none

/-! ### The frame-to-video encoder (`generate_video_from_frames`) -/

/-- One input frame of the encoder, by its two externally-determined
outcomes: whether `fig.write_image` succeeds (the per-frame `try` skips
the frame otherwise) and whether `cv2.imread` of the written file returns
an image (with its dimensions) rather than `None`. -/
structure RenderFrame where
  rasterizes : Bool
  decodes : Bool
  width : ℕ
  height : ℕ
deriving DecidableEq, Inhabited

/-- The fresh directory created by `tempfile.TemporaryDirectory()` for the
rasterized stills. -/
def tempFramesDir : String := "TMPFRAMES"

/-- Zero-padded frame index (`f"frame_\x7bi:04d\x7d.png"`). -/
def pad4 (i : ℕ) : String :=
  let s := toString i
  ⟨List.replicate (4 - s.length) '0' ++ s.data⟩

/-- Path of the rasterized still for frame `i`. -/
def framePath (i : ℕ) : String :=
  tempFramesDir ++ "/frame_" ++ pad4 i ++ ".png"

/-- Whether path `p` lies inside directory `dir` (the directory name is a
prefix of the path). -/
def inDir (dir p : String) : Bool :=
  dir.data.isPrefixOf p.data

/-- The successfully rasterized frames with their indices, in order: the
`image_files` list after the rasterization loop. -/
def rasterizedFrames (frames : List RenderFrame) : List (ℕ × RenderFrame) :=
  frames.enum.filter (fun p => p.2.rasterizes)

/-- Observable outcome of one run of `generate_video_from_frames`:
the returned value, how many `cv2.imread` calls happened, whether a
`cv2.VideoWriter` was opened, how many stills were written into the
container, whether the temporary frame directory was removed, and which
files exist after the call returns. -/
structure VidRun where
  result : Option String
  imagesRead : ℕ
  writerOpened : Bool
  framesWritten : ℕ
  tempDirDeleted : Bool
  survivingFiles : List String
deriving DecidableEq, Inhabited

/-- `generate_video_from_frames(frames, output_path, fps)` from
`presentation_animator.py`.  When `output_path` is `None` a fresh
`mkdtemp` directory (distinct from the frames directory) provides the
default path.  The stills live in a `with tempfile.TemporaryDirectory()`
block, so the directory and its contents are removed on every exit path.
If no still was rasterized the function returns `None` before any read;
if the first still fails to decode it returns `None` before a writer is
opened.  Otherwise the first still is read once for the dimensions, a
writer is opened, and every decodable still is written. -/
def generate_video_from_frames (frames : List RenderFrame)
    (output_path : Option String) (fps : ℕ) : VidRun :=
  let out := output_path.getD "MKDTEMP/visualization.mp4"
  match rasterizedFrames frames with
  | [] =>
    { result := none, imagesRead := 0, writerOpened := false,
      framesWritten := 0, tempDirDeleted := true, survivingFiles := [] }
  | first :: rest =>
    if first.2.decodes then
      { result := some out,
        imagesRead := 1 + (first :: rest).length,
        writerOpened := true,
        framesWritten := ((first :: rest).filter (fun p => p.2.decodes)).length,
        tempDirDeleted := true,
        survivingFiles := [out] }
    else
      { result := none, imagesRead := 1, writerOpened := false,
        framesWritten := 0, tempDirDeleted := true, survivingFiles := [] }

/-! ### The tabular loader and its upload consumer
(`streamlit_env/utils/data_processing.py`, `streamlit_env/main.py`) -/

/-- An uploaded file, by the outcome of `pd.read_csv` on it: a table with
its dimensions, or a parse error. -/
inductive UploadedFile where
  | parses (nRows nCols : ℕ)
  | malformed (err : String)
deriving DecidableEq, Inhabited

/-- The loaded table: its shape, which is all the consumer checks. -/
structure Table where
  nRows : ℕ
  nCols : ℕ
deriving DecidableEq, Inhabited

/-- `pd.DataFrame.empty`: true when either axis has length 0. -/
def Table.isEmptyTable (t : Table) : Bool :=
  t.nRows = 0 ∨ t.nCols = 0

/-- `load_data(file)` from `data_processing.py`: `pd.read_csv` inside
`try`/`except`, returning `None` (never raising) when parsing fails. -/
def load_data : UploadedFile → Option Table
  | UploadedFile.parses r c => some ⟨r, c⟩
  | UploadedFile.malformed _ => none

/-- Session effects of the "Process File Upload" handler in `main.py`. -/
structure UploadOutcome where
  data_loaded : Bool
  insights_requested : Bool
  error_shown : Bool
deriving DecidableEq, Inhabited

/-- `main.py` lines 200-213: `df = load_data(uploaded_file)`; only when
`df is not None and not df.empty` are `st.session_state.data_loaded` set
and `generate_insights` invoked; otherwise an error is shown and no state
changes. -/
def process_file_upload (file : UploadedFile) : UploadOutcome :=
  match load_data file with
  | some df =>
    if ¬ df.isEmptyTable then
      { data_loaded := true, insights_requested := true, error_shown := false }
    else
      { data_loaded := false, insights_requested := false, error_shown := true }
  | none =>
    { data_loaded := false, insights_requested := false, error_shown := true }

/-! ## Helper lemmas -/

theorem buildFrames_length {mk : ℕ → Option GoFigure} :
    ∀ {n : ℕ} {l : List GoFigure}, buildFrames mk n = some l → l.length = n := by
  intro n
  induction n with
  | zero => intro l h; simp [buildFrames] at h; simp [← h]
  | succ n ih =>
    intro l h
    simp only [buildFrames, Option.bind_eq_bind, Option.bind_eq_some] at h
    obtain ⟨fs, hfs, f, hf, hl⟩ := h
    simp only [Option.some.injEq] at hl
    simp [← hl, ih hfs]

theorem buildFrames_all_some (g : ℕ → GoFigure) :
    ∀ n : ℕ, buildFrames (fun i => some (g i)) n = some ((List.range n).map g) := by
  intro n
  induction n with
  | zero => simp [buildFrames]
  | succ n ih => simp [buildFrames, ih, List.range_succ]

theorem cellsToNum_map_num (l : List ℚ) :
    cellsToNum (l.map Cell.num) = some l := by
  induction l with
  | nil => simp [cellsToNum]
  | cons q qs ih => simp [cellsToNum, ih]

theorem listMax_of_ne_nil : ∀ {l : List ℚ}, l ≠ [] → ∃ m, listMax l = some m := by
  intro l
  induction l with
  | nil => intro h; exact absurd rfl h
  | cons q qs ih =>
    intro _
    match qs, ih with
    | [], _ => exact ⟨q, rfl⟩
    | q2 :: qs2, ih =>
      obtain ⟨m, hm⟩ := ih (by simp)
      exact ⟨max q m, by simp [listMax] at hm ⊢; simp [hm]⟩

theorem pyTrunc_eq_floor {q : ℚ} (h : 0 ≤ q) : pyTrunc q = ⌊q⌋ := by
  rw [Rat.floor_def, pyTrunc]
  exact Int.tdiv_eq_ediv (Rat.num_nonneg.mpr h) (by positivity)

theorem firstIdx_eq_none {c : Char} :
    ∀ {l : List Char}, c ∉ l → firstIdx c l = none := by
  intro l
  induction l with
  | nil => intro _; rfl
  | cons d ds ih =>
    intro h
    simp only [List.mem_cons, not_or] at h
    simp [firstIdx, Ne.symm h.1, ih h.2]

theorem easing_function_last {N : ℕ} (hN : 2 ≤ N) :
    easing_function ((N - 1 : ℕ) / (N : ℚ)) = 1 - 4 / (N : ℚ) ^ 3 := by
  have hN0 : (N : ℚ) ≠ 0 := by positivity
  have hNpos : (0 : ℚ) < N := by positivity
  have h1 : (1 : ℕ) ≤ N := le_trans (by norm_num) hN
  have hcast : ((N - 1 : ℕ) : ℚ) = (N : ℚ) - 1 := by
    rw [Nat.cast_sub h1]
    norm_num
  have h2 : (2 : ℚ) ≤ N := by exact_mod_cast hN
  rw [easing_function, hcast, if_neg]
  · have harg : -2 * (((N : ℚ) - 1) / N) + 2 = 2 / N := by
      field_simp
      ring
    rw [harg, div_pow, div_div]
    rw [show ((2 : ℚ))^3 = 8 by norm_num]
    congr 1
    rw [div_eq_div_iff (by positivity) (by positivity)]
    ring
  · rw [not_lt, le_div_iff₀ hNpos]
    linarith

/-! ## Claim theorems -/

/-- C1: the spec claims `ease(t) = 4t³` for `t < 0.5` and continuity on
`[0,1]`.  The source's `easing_function` (whose docstring names the
standard, continuous "ease-in-out cubic", i.e. the spec's formula)
computes `t³` instead: at `t = 1/4` it yields `1/64` while the claimed
formula yields `4·(1/4)³ = 1/16`, and the curve jumps from
`easing_function(49/100) = 117649/10⁶ < 1/8` to `easing_function(1/2) =
1/2`, so it is not continuous at `1/2`.  (The endpoint values 0 and 1 and
monotonicity do hold.)  This theorem records the divergence by evaluating
the code at the failing input. -/
theorem C1_easing_code_divergence :
    easing_function (1/4) = 1/64 ∧
    4 * ((1/4 : ℚ))^3 = 1/16 ∧
    easing_function (1/4) ≠ 4 * ((1/4 : ℚ))^3 ∧
    easing_function 0 = 0 ∧
    easing_function 1 = 1 ∧
    1/3 < easing_function (1/2) - easing_function (49/100) := by
  norm_num [easing_function]

theorem rasterizedFrames_eq_nil {frames : List RenderFrame}
    (h : ∀ f ∈ frames, f.rasterizes = false) :
    rasterizedFrames frames = [] := by
  rw [rasterizedFrames, List.filter_eq_nil_iff]
  intro p hp
  have hmem : p.2 ∈ frames :=
    List.getElem?_mem (List.mem_enum_iff_getElem?.mp hp)
  simp [h p.2 hmem]

/-- C9: the tabular loader returns an absent result (never an exception,
being a total function into `Option`) when parsing fails, and the upload
consumer neither requests insights nor marks data as loaded whenever the
loaded table is absent or has zero rows. -/
theorem C9_loader_absent_and_consumer_guard :
    (∀ err, load_data (UploadedFile.malformed err) = none) ∧
    (∀ file : UploadedFile,
      (∀ t, load_data file = some t → t.nRows = 0) →
      (process_file_upload file).insights_requested = false ∧
      (process_file_upload file).data_loaded = false) := by
  refine ⟨fun _ => rfl, fun file h => ?_⟩
  cases file with
  | malformed err => exact ⟨rfl, rfl⟩
  | parses r c =>
    have hr : r = 0 := h ⟨r, c⟩ rfl
    subst hr
    simp [process_file_upload, load_data, Table.isEmptyTable]

/-- Witness for C9: a malformed upload loads as `none`, and a parsed but
0-row upload does not trigger insight generation. -/
theorem C9_witness :
    load_data (UploadedFile.malformed "not,a,csv") = none ∧
    (process_file_upload (UploadedFile.parses 0 3)).insights_requested = false := by
  refine ⟨C9_loader_absent_and_consumer_guard.1 "not,a,csv", ?_⟩
  refine (C9_loader_absent_and_consumer_guard.2 (UploadedFile.parses 0 3) ?_).1
  intro t ht
  simp only [load_data, Option.some.injEq] at ht
  simp [← ht]

/-- C7: the frame-to-video encoder aborts with a failure before reading
any image when zero stills were rasterized, and aborts before opening a
video writer (hence writes nothing) when the first rasterized still fails
to decode. -/
theorem C7_encoder_early_aborts (frames : List RenderFrame)
    (op : Option String) (fps : ℕ) :
    ((∀ f ∈ frames, f.rasterizes = false) →
      (generate_video_from_frames frames op fps).result = none ∧
      (generate_video_from_frames frames op fps).imagesRead = 0 ∧
      (generate_video_from_frames frames op fps).writerOpened = false ∧
      (generate_video_from_frames frames op fps).framesWritten = 0) ∧
    (∀ i f rest, rasterizedFrames frames = (i, f) :: rest →
      f.decodes = false →
      (generate_video_from_frames frames op fps).result = none ∧
      (generate_video_from_frames frames op fps).imagesRead = 1 ∧
      (generate_video_from_frames frames op fps).writerOpened = false ∧
      (generate_video_from_frames frames op fps).framesWritten = 0) := by
  constructor
  · intro h
    have hnil := rasterizedFrames_eq_nil h
    simp [generate_video_from_frames, hnil]
  · intro i f rest hcons hdec
    simp [generate_video_from_frames, hcons, hdec]

/-- Witness for C7: instantiation at a frame list whose only frame fails
to rasterize, and at one whose only (rasterized) still fails to decode. -/
theorem C7_witness :
    (generate_video_from_frames [⟨false, true, 4, 3⟩] none 30).result = none ∧
    (generate_video_from_frames [⟨false, true, 4, 3⟩] none 30).imagesRead = 0 ∧
    (generate_video_from_frames [⟨true, false, 4, 3⟩] none 30).writerOpened = false ∧
    (generate_video_from_frames [⟨true, false, 4, 3⟩] none 30).imagesRead = 1 := by
  have h1 := (C7_encoder_early_aborts [⟨false, true, 4, 3⟩] none 30).1
    (by intro f hf; simp at hf; simp [hf])
  have h2 := (C7_encoder_early_aborts [⟨true, false, 4, 3⟩] none 30).2
    0 ⟨true, false, 4, 3⟩ [] (by rfl) rfl
  exact ⟨h1.1, h1.2.1, h2.2.2.1, h2.2.1⟩

/-- C8: after every run of the encoder the temporary frame directory is
gone (`with tempfile.TemporaryDirectory()` removes it on success and
failure alike), no surviving file lies inside it, and on success the
returned video path is a surviving, readable file outside it.  The
hypothesis models the freshness of the `TemporaryDirectory` name: a
caller-supplied output path cannot point into a directory that does not
exist until the call. -/
theorem C8_cleanup_invariant (frames : List RenderFrame)
    (op : Option String) (fps : ℕ)
    (hfresh : ∀ p, op = some p → ¬ (inDir tempFramesDir p = true)) :
    (generate_video_from_frames frames op fps).tempDirDeleted = true ∧
    (∀ q ∈ (generate_video_from_frames frames op fps).survivingFiles,
      ¬ (inDir tempFramesDir q = true)) ∧
    (∀ p, (generate_video_from_frames frames op fps).result = some p →
      p ∈ (generate_video_from_frames frames op fps).survivingFiles ∧
      ¬ (inDir tempFramesDir p = true)) := by
  have hout : ¬ (inDir tempFramesDir (op.getD "MKDTEMP/visualization.mp4") = true) := by
    cases op with
    | none =>
      show ¬ (inDir tempFramesDir "MKDTEMP/visualization.mp4" = true)
      decide
    | some p => exact hfresh p rfl
  cases h : rasterizedFrames frames with
  | nil => simp [generate_video_from_frames, h]
  | cons first rest =>
    cases hd : first.2.decodes with
    | true =>
      refine ⟨?_, ?_, ?_⟩
      · simp [generate_video_from_frames, h, hd]
      · intro q hq
        simp only [generate_video_from_frames, h, hd, if_true,
          List.mem_singleton] at hq
        simpa [hq] using hout
      · intro p hp
        simp only [generate_video_from_frames, h, hd, if_true,
          Option.some.injEq] at hp
        subst hp
        exact ⟨by simp [generate_video_from_frames, h, hd], hout⟩
    | false =>
      simp [generate_video_from_frames, h, hd]

theorem basicBarBranch_length {df : DataFrame} {cfg : VizConfig} {N : ℕ}
    {fs : List GoFigure} (h : basicBarBranch df cfg N = some fs) :
    fs.length = N := by
  simp only [basicBarBranch, Option.bind_eq_bind, Option.bind_eq_some] at h
  obtain ⟨yn, _, yc, _, xn, _, xd, _, hbf⟩ := h
  exact buildFrames_length hbf

theorem stackedBarBranch_length {df : DataFrame} {cfg : VizConfig} {N : ℕ}
    {fs : List GoFigure} (h : stackedBarBranch df cfg N = some fs) :
    fs.length = N := by
  simp only [stackedBarBranch, Option.bind_eq_bind, Option.bind_eq_some] at h
  obtain ⟨xn, _, xc, _, sc, _, hbf⟩ := h
  exact buildFrames_length hbf

theorem groupedBarBranch_length {df : DataFrame} {cfg : VizConfig} {N : ℕ}
    {fs : List GoFigure} (h : groupedBarBranch df cfg N = some fs) :
    fs.length = N := by
  simp only [groupedBarBranch, Option.bind_eq_bind, Option.bind_eq_some] at h
  obtain ⟨xn, _, xc, _, gc, _, hbf⟩ := h
  exact buildFrames_length hbf

theorem lineBranch_length {df : DataFrame} {cfg : VizConfig} {N : ℕ}
    {fs : List GoFigure} (h : lineBranch df cfg N = some fs) :
    fs.length = N := by
  simp only [lineBranch, Option.bind_eq_bind, Option.bind_eq_some] at h
  obtain ⟨xn, _, xd, _, yn, _, yc, _, hbf⟩ := h
  exact buildFrames_length hbf

theorem scatterBranch_length {df : DataFrame} {cfg : VizConfig} {N : ℕ}
    {fs : List GoFigure} (h : scatterBranch df cfg N = some fs) :
    fs.length = N := by
  simp only [scatterBranch, Option.bind_eq_bind, Option.bind_eq_some] at h
  obtain ⟨xn, _, xd, _, yn, _, yc, _, hbf⟩ := h
  exact buildFrames_length hbf

theorem pieBranch_length {df : DataFrame} {cfg : VizConfig} {N : ℕ}
    {fs : List GoFigure} (h : pieBranch df cfg N = some fs) :
    fs.length = N := by
  simp only [pieBranch, Option.bind_eq_bind, Option.bind_eq_some] at h
  obtain ⟨vn, _, vc, _, ln, _, lc, _, vq, _, hbf⟩ := h
  exact buildFrames_length hbf

/-- C2: for every data frame, configuration, duration and fps, the frame
generator returns either exactly `duration × fps` figures or the empty
list — no other length is possible, because the single `try`/`except`
around the whole loop discards all partial output on any failure, and
every successful branch appends exactly one figure per loop iteration. -/
theorem C2_frame_count (df : DataFrame) (cfg : VizConfig)
    (duration fps : ℕ) :
    (create_animated_visualization df cfg duration fps).length =
      duration * fps ∨
    (create_animated_visualization df cfg duration fps).length = 0 := by
  unfold create_animated_visualization
  cases h : animBody df cfg (duration * fps) with
  | none => right; rfl
  | some fs =>
    simp only [Option.getD_some]
    revert h
    unfold animBody
    split_ifs with h1 h2 h3 h4 h5 h6
    · exact fun h => Or.inl (basicBarBranch_length h)
    · exact fun h => Or.inl (stackedBarBranch_length h)
    · exact fun h => Or.inl (groupedBarBranch_length h)
    · exact fun h => Or.inl (lineBranch_length h)
    · exact fun h => Or.inl (scatterBranch_length h)
    · exact fun h => Or.inl (pieBranch_length h)
    · intro h
      right
      simp only [Option.some.injEq] at h
      simp [← h]

theorem range_map_getD {α : Type} (f : ℕ → α) (d : α) {N i : ℕ} (h : i < N) :
    (((List.range N).map f).getD i d) = f i := by
  rw [List.getD_eq_getElem?_getD, List.getElem?_map, List.getElem?_range h]
  rfl

theorem pyTrunc_natCast_div (a b : ℕ) :
    pyTrunc ((a : ℚ) / (b : ℚ)) = ((a / b : ℕ) : ℤ) := by
  rw [pyTrunc_eq_floor (by positivity)]
  rw [show ((a : ℚ) / (b : ℚ)) = (((a : ℤ) : ℚ) / ((b : ℕ) : ℚ)) by push_cast; ring]
  rw [Rat.floor_intCast_div_natCast]
  simp [Int.ofNat_ediv]

theorem easing_function_zero : easing_function 0 = 0 := by
  norm_num [easing_function]

theorem easing_half : easing_function (1/2) = 1/2 := by
  norm_num [easing_function]

theorem pyTrunc_zero : pyTrunc 0 = 0 := rfl

theorem lineBranch_eq (df : DataFrame) (cfg : VizConfig) (N : ℕ)
    (xn yn : String) (x_cells : List Cell) (yq : List ℚ) (m : ℚ)
    (hx : cfg.x = some xn) (hdx : df.get xn = some x_cells)
    (hy : cfg.y = some yn) (hdy : df.get yn = some (yq.map Cell.num))
    (hm : listMax yq = some m) :
    lineBranch df cfg N = some ((List.range N).map (fun i =>
      { data := [AnimTrace.scatterTrace
          (x_cells.take (max 2 (pyTrunc ((x_cells.length : ℚ) *
            easing_function ((i : ℚ) / (N : ℚ)))).toNat))
          (yq.take (max 2 (pyTrunc ((x_cells.length : ℚ) *
            easing_function ((i : ℚ) / (N : ℚ)))).toNat))
          "lines+markers" 8 (easing_function ((i : ℚ) / (N : ℚ)))],
        layout := { title := cfg.title, xtitle := some xn,
                    yrange := some (0, m * (11/10)) } })) := by
  unfold lineBranch
  simp only [hx, hy, hdx, hdy, Option.bind_eq_bind, Option.some_bind,
    cellsToNum_map_num, hm]
  exact buildFrames_all_some _ N

theorem scatterBranch_eq (df : DataFrame) (cfg : VizConfig) (N : ℕ)
    (xn yn : String) (x_cells : List Cell) (yq : List ℚ) (m : ℚ)
    (hx : cfg.x = some xn) (hdx : df.get xn = some x_cells)
    (hy : cfg.y = some yn) (hdy : df.get yn = some (yq.map Cell.num))
    (hm : listMax yq = some m) :
    scatterBranch df cfg N = some ((List.range N).map (fun i =>
      { data := [AnimTrace.scatterTrace
          (x_cells.take (max 2 (pyTrunc ((x_cells.length : ℚ) *
            easing_function ((i : ℚ) / (N : ℚ)))).toNat))
          (yq.take (max 2 (pyTrunc ((x_cells.length : ℚ) *
            easing_function ((i : ℚ) / (N : ℚ)))).toNat))
          "markers" 10 (easing_function ((i : ℚ) / (N : ℚ)))],
        layout := { title := cfg.title, xtitle := some xn,
                    yrange := some (0, m * (11/10)) } })) := by
  unfold scatterBranch
  simp only [hx, hy, hdx, hdy, Option.bind_eq_bind, Option.some_bind,
    cellsToNum_map_num, hm]
  exact buildFrames_all_some _ N

theorem reveal_stats (D F P : ℕ) (xd yd : List ℚ) (mode : String) (sz : ℚ)
    (lay : Layout) (hxl : xd.length = P) (hP : 2 ≤ P) (hN : 2 ≤ D * F) :
    ((List.range (D * F)).map (fun (i : ℕ) =>
      ({ data := [AnimTrace.scatterTrace
           ((xd.map Cell.num).take (max 2 (pyTrunc (((xd.map Cell.num).length : ℚ) *
             easing_function ((i : ℚ) / ((D * F : ℕ) : ℚ)))).toNat))
           (yd.take (max 2 (pyTrunc (((xd.map Cell.num).length : ℚ) *
             easing_function ((i : ℚ) / ((D * F : ℕ) : ℚ)))).toNat))
           mode sz (easing_function ((i : ℚ) / ((D * F : ℕ) : ℚ)))],
         layout := lay } : GoFigure))).length = D * F ∧
    (((List.range (D * F)).map (fun (i : ℕ) =>
      ({ data := [AnimTrace.scatterTrace
           ((xd.map Cell.num).take (max 2 (pyTrunc (((xd.map Cell.num).length : ℚ) *
             easing_function ((i : ℚ) / ((D * F : ℕ) : ℚ)))).toNat))
           (yd.take (max 2 (pyTrunc (((xd.map Cell.num).length : ℚ) *
             easing_function ((i : ℚ) / ((D * F : ℕ) : ℚ)))).toNat))
           mode sz (easing_function ((i : ℚ) / ((D * F : ℕ) : ℚ)))],
         layout := lay } : GoFigure))).map visiblePoints).getD 0 0 = 2 ∧
    (((List.range (D * F)).map (fun (i : ℕ) =>
      ({ data := [AnimTrace.scatterTrace
           ((xd.map Cell.num).take (max 2 (pyTrunc (((xd.map Cell.num).length : ℚ) *
             easing_function ((i : ℚ) / ((D * F : ℕ) : ℚ)))).toNat))
           (yd.take (max 2 (pyTrunc (((xd.map Cell.num).length : ℚ) *
             easing_function ((i : ℚ) / ((D * F : ℕ) : ℚ)))).toNat))
           mode sz (easing_function ((i : ℚ) / ((D * F : ℕ) : ℚ)))],
         layout := lay } : GoFigure))).map visiblePoints).getD (D * F - 1) 0 =
      min P (max 2 (pyTrunc ((P : ℚ) *
        (1 - 4 / ((D * F : ℕ) : ℚ) ^ 3))).toNat) := by
  refine ⟨by simp, ?_, ?_⟩
  · rw [List.map_map, range_map_getD _ 0 (by omega)]
    simp only [Function.comp_apply, visiblePoints, Nat.cast_zero, zero_div,
      easing_function_zero, mul_zero, pyTrunc_zero, Int.toNat_zero]
    norm_num
    omega
  · rw [List.map_map, range_map_getD _ 0 (by omega : D * F - 1 < D * F)]
    simp only [Function.comp_apply, visiblePoints]
    rw [easing_function_last hN]
    rw [List.length_take]
    simp only [List.length_map, hxl]
    omega

/-- C3 (counterexample): for a `line` animation over a 5-point table with
`duration = 1`, `fps = 2` (so `N = 2` frames), the progress of the last
frame is `ease(1/2) = 1/2`, the visible point count is
`max(2, int(5·1/2)) = 2`, not the full count 5 the claim requires. -/
theorem C3_counterexample :
    ((create_animated_visualization
        ⟨[("xcol", ([1, 2, 3, 4, 5] : List ℚ).map Cell.num),
          ("ycol", ([1, 2, 3, 4, 5] : List ℚ).map Cell.num)]⟩
        { type := "line", title := "T", x := some "xcol", y := some "ycol" }
        1 2).map visiblePoints) = [2, 2] ∧ (2 : ℕ) ≠ 5 := by
  refine ⟨?_, by omega⟩
  obtain ⟨m, hm⟩ := listMax_of_ne_nil (l := [1, 2, 3, 4, 5]) (by simp)
  have hline := lineBranch_eq
    ⟨[("xcol", ([1, 2, 3, 4, 5] : List ℚ).map Cell.num),
      ("ycol", ([1, 2, 3, 4, 5] : List ℚ).map Cell.num)]⟩
    { type := "line", title := "T", x := some "xcol", y := some "ycol" }
    2 "xcol" "ycol" (([1, 2, 3, 4, 5] : List ℚ).map Cell.num)
    [1, 2, 3, 4, 5] m rfl rfl rfl rfl hm
  have hfull : create_animated_visualization
      ⟨[("xcol", ([1, 2, 3, 4, 5] : List ℚ).map Cell.num),
        ("ycol", ([1, 2, 3, 4, 5] : List ℚ).map Cell.num)]⟩
      { type := "line", title := "T", x := some "xcol", y := some "ycol" }
      1 2 = (List.range 2).map (fun i =>
      { data := [AnimTrace.scatterTrace
          ((([1, 2, 3, 4, 5] : List ℚ).map Cell.num).take
            (max 2 (pyTrunc (((([1, 2, 3, 4, 5] : List ℚ).map Cell.num).length : ℚ) *
              easing_function ((i : ℚ) / ((2 : ℕ) : ℚ)))).toNat))
          (([1, 2, 3, 4, 5] : List ℚ).take
            (max 2 (pyTrunc (((([1, 2, 3, 4, 5] : List ℚ).map Cell.num).length : ℚ) *
              easing_function ((i : ℚ) / ((2 : ℕ) : ℚ)))).toNat))
          "lines+markers" 8 (easing_function ((i : ℚ) / ((2 : ℕ) : ℚ)))],
        layout := { title := "T", xtitle := some "xcol",
                    yrange := some (0, m * (11/10)) } }) := by
    unfold create_animated_visualization
    rw [show (1 * 2 : ℕ) = 2 from rfl]
    rw [show animBody
        ⟨[("xcol", ([1, 2, 3, 4, 5] : List ℚ).map Cell.num),
          ("ycol", ([1, 2, 3, 4, 5] : List ℚ).map Cell.num)]⟩
        { type := "line", title := "T", x := some "xcol", y := some "ycol" }
        2 = lineBranch
        ⟨[("xcol", ([1, 2, 3, 4, 5] : List ℚ).map Cell.num),
          ("ycol", ([1, 2, 3, 4, 5] : List ℚ).map Cell.num)]⟩
        { type := "line", title := "T", x := some "xcol", y := some "ycol" }
        2 from rfl]
    rw [hline]
    rfl
  rw [hfull, List.map_map]
  rw [show (List.range 2) = [0, 1] from rfl]
  simp only [List.map_cons, List.map_nil, Function.comp_apply, visiblePoints]
  have h0 : easing_function (((0 : ℕ) : ℚ) / ((2 : ℕ) : ℚ)) = 0 := by
    norm_num [easing_function_zero]
  have h1 : easing_function (((1 : ℕ) : ℚ) / ((2 : ℕ) : ℚ)) = 1/2 := by
    norm_num [easing_half]
  rw [h0, h1]
  have hp0 : (pyTrunc ((([Cell.num 1, Cell.num 2, Cell.num 3, Cell.num 4,
      Cell.num 5] : List Cell).length : ℚ) * 0)).toNat = 0 := by
    norm_num [pyTrunc_zero]
  have hp1 : (pyTrunc ((([Cell.num 1, Cell.num 2, Cell.num 3, Cell.num 4,
      Cell.num 5] : List Cell).length : ℚ) * (1/2))).toNat = 2 := by
    rw [show (([Cell.num 1, Cell.num 2, Cell.num 3, Cell.num 4,
      Cell.num 5] : List Cell).length : ℚ) = ((5 : ℕ) : ℚ) from by norm_num]
    rw [show (((5 : ℕ) : ℚ)) * (1/2) = ((5 : ℕ) : ℚ) / ((2 : ℕ) : ℚ) from by
      push_cast; ring]
    rw [pyTrunc_natCast_div]
    decide
  rw [hp0, hp1]
  decide

/-- C3 (amended): for a `line` or `scatter` animation over a table with
`P ≥ 2` points and `N = D×F ≥ 2` frames, the frame at index 0 shows
exactly 2 points (the floor), and the frame at index `N−1` shows
`min P (max 2 ⌊P·(1 − 4/N³)⌋)` points — the last frame's progress is
`ease((N−1)/N) = 1 − 4/N³ < 1`, so the full count `P` is generally not
reached (e.g. `P−1` whenever `P ≥ 3` and `4P ≤ N³`). -/
theorem C3_reveal_amended (D F P : ℕ) (xd yd : List ℚ)
    (hxl : xd.length = P) (hyl : yd.length = P) (hP : 2 ≤ P)
    (hN : 2 ≤ D * F) :
    ((create_animated_visualization
        ⟨[("xcol", xd.map Cell.num), ("ycol", yd.map Cell.num)]⟩
        { type := "line", title := "T", x := some "xcol", y := some "ycol" }
        D F).length = D * F ∧
      ((create_animated_visualization
        ⟨[("xcol", xd.map Cell.num), ("ycol", yd.map Cell.num)]⟩
        { type := "line", title := "T", x := some "xcol", y := some "ycol" }
        D F).map visiblePoints).getD 0 0 = 2 ∧
      ((create_animated_visualization
        ⟨[("xcol", xd.map Cell.num), ("ycol", yd.map Cell.num)]⟩
        { type := "line", title := "T", x := some "xcol", y := some "ycol" }
        D F).map visiblePoints).getD (D * F - 1) 0 =
        min P (max 2 (pyTrunc ((P : ℚ) *
          (1 - 4 / ((D * F : ℕ) : ℚ) ^ 3))).toNat)) ∧
    ((create_animated_visualization
        ⟨[("xcol", xd.map Cell.num), ("ycol", yd.map Cell.num)]⟩
        { type := "scatter", title := "T", x := some "xcol", y := some "ycol" }
        D F).length = D * F ∧
      ((create_animated_visualization
        ⟨[("xcol", xd.map Cell.num), ("ycol", yd.map Cell.num)]⟩
        { type := "scatter", title := "T", x := some "xcol", y := some "ycol" }
        D F).map visiblePoints).getD 0 0 = 2 ∧
      ((create_animated_visualization
        ⟨[("xcol", xd.map Cell.num), ("ycol", yd.map Cell.num)]⟩
        { type := "scatter", title := "T", x := some "xcol", y := some "ycol" }
        D F).map visiblePoints).getD (D * F - 1) 0 =
        min P (max 2 (pyTrunc ((P : ℚ) *
          (1 - 4 / ((D * F : ℕ) : ℚ) ^ 3))).toNat)) := by
  have hyne : yd ≠ [] := by
    intro hnil
    rw [hnil] at hyl
    simp at hyl
    omega
  obtain ⟨m, hm⟩ := listMax_of_ne_nil hyne
  have hlineB := lineBranch_eq
    ⟨[("xcol", xd.map Cell.num), ("ycol", yd.map Cell.num)]⟩
    { type := "line", title := "T", x := some "xcol", y := some "ycol" }
    (D * F) "xcol" "ycol" (xd.map Cell.num) yd m rfl rfl rfl rfl hm
  have hscatB := scatterBranch_eq
    ⟨[("xcol", xd.map Cell.num), ("ycol", yd.map Cell.num)]⟩
    { type := "scatter", title := "T", x := some "xcol", y := some "ycol" }
    (D * F) "xcol" "ycol" (xd.map Cell.num) yd m rfl rfl rfl rfl hm
  have hfullL : create_animated_visualization
      ⟨[("xcol", xd.map Cell.num), ("ycol", yd.map Cell.num)]⟩
      { type := "line", title := "T", x := some "xcol", y := some "ycol" }
      D F = (List.range (D * F)).map (fun (i : ℕ) =>
      ({ data := [AnimTrace.scatterTrace
           ((xd.map Cell.num).take (max 2 (pyTrunc (((xd.map Cell.num).length : ℚ) *
             easing_function ((i : ℚ) / ((D * F : ℕ) : ℚ)))).toNat))
           (yd.take (max 2 (pyTrunc (((xd.map Cell.num).length : ℚ) *
             easing_function ((i : ℚ) / ((D * F : ℕ) : ℚ)))).toNat))
           "lines+markers" 8 (easing_function ((i : ℚ) / ((D * F : ℕ) : ℚ)))],
         layout := { title := "T", xtitle := some "xcol",
                     yrange := some (0, m * (11/10)) } } : GoFigure)) := by
    unfold create_animated_visualization
    rw [show animBody ⟨[("xcol", xd.map Cell.num), ("ycol", yd.map Cell.num)]⟩
        { type := "line", title := "T", x := some "xcol", y := some "ycol" }
        (D * F) = lineBranch ⟨[("xcol", xd.map Cell.num), ("ycol", yd.map Cell.num)]⟩
        { type := "line", title := "T", x := some "xcol", y := some "ycol" }
        (D * F) from rfl, hlineB]
    rfl
  have hfullS : create_animated_visualization
      ⟨[("xcol", xd.map Cell.num), ("ycol", yd.map Cell.num)]⟩
      { type := "scatter", title := "T", x := some "xcol", y := some "ycol" }
      D F = (List.range (D * F)).map (fun (i : ℕ) =>
      ({ data := [AnimTrace.scatterTrace
           ((xd.map Cell.num).take (max 2 (pyTrunc (((xd.map Cell.num).length : ℚ) *
             easing_function ((i : ℚ) / ((D * F : ℕ) : ℚ)))).toNat))
           (yd.take (max 2 (pyTrunc (((xd.map Cell.num).length : ℚ) *
             easing_function ((i : ℚ) / ((D * F : ℕ) : ℚ)))).toNat))
           "markers" 10 (easing_function ((i : ℚ) / ((D * F : ℕ) : ℚ)))],
         layout := { title := "T", xtitle := some "xcol",
                     yrange := some (0, m * (11/10)) } } : GoFigure)) := by
    unfold create_animated_visualization
    rw [show animBody ⟨[("xcol", xd.map Cell.num), ("ycol", yd.map Cell.num)]⟩
        { type := "scatter", title := "T", x := some "xcol", y := some "ycol" }
        (D * F) = scatterBranch ⟨[("xcol", xd.map Cell.num), ("ycol", yd.map Cell.num)]⟩
        { type := "scatter", title := "T", x := some "xcol", y := some "ycol" }
        (D * F) from rfl, hscatB]
    rfl
  have hsL := reveal_stats D F P xd yd "lines+markers" 8
    { title := "T", xtitle := some "xcol",
      yrange := some (0, m * (11/10)) } hxl hP hN
  have hsS := reveal_stats D F P xd yd "markers" 10
    { title := "T", xtitle := some "xcol",
      yrange := some (0, m * (11/10)) } hxl hP hN
  rw [hfullL, hfullS]
  exact ⟨hsL, hsS⟩

/-- Witness for C3's amended theorem: at `P = 5`, `D = 1`, `F = 3`
(`N = 3`), for both the `line` and the `scatter` kinds, the first frame
shows 2 points and the last frame shows
`min 5 (max 2 ⌊5·(1 − 4/27)⌋) = 4 = P − 1 ≠ P` points. -/
theorem C3_witness :
    (((create_animated_visualization
        ⟨[("xcol", ([1, 2, 3, 4, 5] : List ℚ).map Cell.num),
          ("ycol", ([1, 2, 3, 4, 5] : List ℚ).map Cell.num)]⟩
        { type := "line", title := "T", x := some "xcol", y := some "ycol" }
        1 3).map visiblePoints).getD 0 0 = 2 ∧
      ((create_animated_visualization
        ⟨[("xcol", ([1, 2, 3, 4, 5] : List ℚ).map Cell.num),
          ("ycol", ([1, 2, 3, 4, 5] : List ℚ).map Cell.num)]⟩
        { type := "line", title := "T", x := some "xcol", y := some "ycol" }
        1 3).map visiblePoints).getD (1 * 3 - 1) 0 =
        min 5 (max 2 (pyTrunc (((5 : ℕ) : ℚ) *
          (1 - 4 / ((1 * 3 : ℕ) : ℚ) ^ 3))).toNat)) ∧
    (((create_animated_visualization
        ⟨[("xcol", ([1, 2, 3, 4, 5] : List ℚ).map Cell.num),
          ("ycol", ([1, 2, 3, 4, 5] : List ℚ).map Cell.num)]⟩
        { type := "scatter", title := "T", x := some "xcol", y := some "ycol" }
        1 3).map visiblePoints).getD 0 0 = 2 ∧
      ((create_animated_visualization
        ⟨[("xcol", ([1, 2, 3, 4, 5] : List ℚ).map Cell.num),
          ("ycol", ([1, 2, 3, 4, 5] : List ℚ).map Cell.num)]⟩
        { type := "scatter", title := "T", x := some "xcol", y := some "ycol" }
        1 3).map visiblePoints).getD (1 * 3 - 1) 0 =
        min 5 (max 2 (pyTrunc (((5 : ℕ) : ℚ) *
          (1 - 4 / ((1 * 3 : ℕ) : ℚ) ^ 3))).toNat)) ∧
    min 5 (max 2 (pyTrunc (((5 : ℕ) : ℚ) *
      (1 - 4 / ((1 * 3 : ℕ) : ℚ) ^ 3))).toNat) = 4 := by
  have h := C3_reveal_amended 1 3 5 [1, 2, 3, 4, 5] [1, 2, 3, 4, 5]
    rfl rfl (by omega) (by omega)
  refine ⟨⟨h.1.2.1, h.1.2.2⟩, ⟨h.2.2.1, h.2.2.2⟩, ?_⟩
  have harg : ((5 : ℕ) : ℚ) * (1 - 4 / ((1 * 3 : ℕ) : ℚ) ^ 3) =
      ((115 : ℕ) : ℚ) / ((27 : ℕ) : ℚ) := by
    push_cast
    norm_num
  rw [harg, pyTrunc_natCast_div]
  decide

/-- C4 (counterexample): with lower-case column names `"sales"`/`"count"`
the degraded (color-less) `stacked_bar` result differs from `basic_bar`:
`basic_bar` passes `labels` title-casing the axis labels to
`"Sales"`/`"Count"`, while the color-less `stacked_bar`/`grouped_bar`
paths call `px.bar` without `labels`, leaving the raw column names. -/
theorem C4_counterexample :
    create_advanced_visualization
        ⟨[("sales", [Cell.str "a"]), ("count", [Cell.num 1])]⟩
        "stacked_bar"
        { x := some "sales", y := some "count", title := some "T" } ≠
    create_advanced_visualization
        ⟨[("sales", [Cell.str "a"]), ("count", [Cell.num 1])]⟩
        "basic_bar"
        { x := some "sales", y := some "count", title := some "T" } := by
  decide

/-- C4 (amended): for every table and every x/y/title configuration with
no color key, the `stacked_bar` and `grouped_bar` results equal the
`basic_bar` result on the same table and configuration provided the
column names are fixed points of Python's `str.title()` (the results can
differ only in the axis labels, which `basic_bar` title-cases and the
degraded paths do not). -/
theorem C4_degrade_amended (df : DataFrame) (x y t : String)
    (hx : pythonTitle x = x) (hy : pythonTitle y = y) :
    (create_advanced_visualization df "stacked_bar"
        { x := some x, y := some y, title := some t } =
      create_advanced_visualization df "basic_bar"
        { x := some x, y := some y, title := some t }) ∧
    (create_advanced_visualization df "grouped_bar"
        { x := some x, y := some y, title := some t } =
      create_advanced_visualization df "basic_bar"
        { x := some x, y := some y, title := some t }) := by
  have e1 : create_advanced_visualization df "stacked_bar"
      { x := some x, y := some y, title := some t } =
      (if df.hasCol x ∧ df.hasCol y then
        VizResult.figure (PxFigure.bar
          { xCol := x, yCol := y, title := t, xLabel := x, yLabel := y })
      else VizResult.failure vizErrorMsg) := rfl
  have e2 : create_advanced_visualization df "basic_bar"
      { x := some x, y := some y, title := some t } =
      (if df.hasCol x ∧ df.hasCol y then
        VizResult.figure (PxFigure.bar
          { xCol := x, yCol := y, title := t,
            xLabel := pythonTitle x, yLabel := pythonTitle y })
      else VizResult.failure vizErrorMsg) := rfl
  have e3 : create_advanced_visualization df "grouped_bar"
      { x := some x, y := some y, title := some t } =
      (if df.hasCol x ∧ df.hasCol y then
        VizResult.figure (PxFigure.bar
          { xCol := x, yCol := y, title := t, xLabel := x, yLabel := y })
      else VizResult.failure vizErrorMsg) := rfl
  rw [e1, e2, e3, hx, hy]
  exact ⟨rfl, rfl⟩

/-- Witness for C4's amended theorem: title-case column names
`"Sales"`/`"Count"` make the color-less `stacked_bar` equal `basic_bar`. -/
theorem C4_witness :
    create_advanced_visualization
        ⟨[("Sales", [Cell.str "a"]), ("Count", [Cell.num 1])]⟩
        "stacked_bar"
        { x := some "Sales", y := some "Count", title := some "T" } =
    create_advanced_visualization
        ⟨[("Sales", [Cell.str "a"]), ("Count", [Cell.num 1])]⟩
        "basic_bar"
        { x := some "Sales", y := some "Count", title := some "T" } :=
  (C4_degrade_amended
    ⟨[("Sales", [Cell.str "a"]), ("Count", [Cell.num 1])]⟩
    "Sales" "Count" "T" (by decide) (by decide)).1

/-- C10: for any chart-kind string outside the six animation kinds, the
frame generator completes normally with an empty frame list (`some []`
from the body: no exception is raised) and returns `[]` — the same value
as on total failure, with no distinct error signal — whereas the chart
mapper reports an unsupported kind as an explicit failure. -/
theorem C10_unsupported_kind (df : DataFrame) (cfg : VizConfig)
    (acfg : AdvConfig) (D F : ℕ)
    (h : cfg.type ∉ ["basic_bar", "stacked_bar", "grouped_bar",
                     "line", "scatter", "pie"]) :
    animBody df cfg (D * F) = some [] ∧
    create_animated_visualization df cfg D F = [] ∧
    create_advanced_visualization df cfg.type acfg =
      VizResult.failure ("Unsupported visualization type: " ++ cfg.type) := by
  simp only [List.mem_cons, List.not_mem_nil, or_false, not_or] at h
  obtain ⟨h1, h2, h3, h4, h5, h6⟩ := h
  refine ⟨?_, ?_, ?_⟩
  · simp [animBody, h1, h2, h3, h4, h5, h6]
  · simp [create_animated_visualization, animBody, h1, h2, h3, h4, h5, h6]
  · simp [create_advanced_visualization, h1, h2, h3, h4, h5]

/-- Witness for C10: the kind `"heatmap"` yields the empty list from the
animator and a reported failure from the mapper. -/
theorem C10_witness :
    create_animated_visualization ⟨[]⟩ { type := "heatmap", title := "T" } 2 3 = [] ∧
    create_advanced_visualization ⟨[]⟩ "heatmap" {} =
      VizResult.failure ("Unsupported visualization type: " ++ "heatmap") := by
  have h := C10_unsupported_kind ⟨[]⟩ { type := "heatmap", title := "T" } {} 2 3
    (by decide)
  exact ⟨h.2.1, h.2.2⟩

/-- C5: insight-response parsing extracts the substring from the first
opening brace to the last closing brace and parses only it, so the prose
wrapper `"Sure! ... Thanks."` is tolerated and yields the embedded object;
and for any response missing a brace, the raised `ValueError` is caught in
`generate_insights`, whose public interface returns an absent result
instead of propagating an exception. -/
theorem C5_insight_parsing :
    generate_insights_parse "Sure! \x7b\"key_insights\":[]\x7d Thanks." =
      some (Json.obj [("key_insights", Json.arr [])]) ∧
    ∀ s : String, ('\x7b' ∉ s.data ∨ '\x7d' ∉ s.data) →
      generate_insights_parse s = none := by
  constructor
  · rfl
  · intro s h
    rcases h with h | h
    · simp [generate_insights_parse, clean_and_parse_json, firstIdx_eq_none h]
    · have h2 : firstIdx '\x7d' s.data.reverse = none :=
        firstIdx_eq_none (by simpa using h)
      cases h1 : firstIdx '\x7b' s.data with
      | none => simp [generate_insights_parse, clean_and_parse_json, h1]
      | some i =>
        simp [generate_insights_parse, clean_and_parse_json, h1, lastIdx, h2]

/-- Witness for C5: a brace-free response yields an absent result. -/
theorem C5_witness :
    generate_insights_parse "the model returned no json" = none :=
  C5_insight_parsing.2 "the model returned no json" (Or.inl (by decide))

/-- Witness for C8: a successful single-frame run leaves the temp
directory deleted and the default output path alive outside it. -/
theorem C8_witness :
    (generate_video_from_frames [⟨true, true, 4, 3⟩] none 24).tempDirDeleted = true ∧
    (generate_video_from_frames [⟨true, true, 4, 3⟩] none 24).result =
      some "MKDTEMP/visualization.mp4" ∧
    "MKDTEMP/visualization.mp4" ∈
      (generate_video_from_frames [⟨true, true, 4, 3⟩] none 24).survivingFiles ∧
    ¬ (inDir tempFramesDir "MKDTEMP/visualization.mp4" = true) := by
  have h := C8_cleanup_invariant [⟨true, true, 4, 3⟩] none 24
    (by intro p hp; cases hp)
  have hres : (generate_video_from_frames [⟨true, true, 4, 3⟩] none 24).result =
      some "MKDTEMP/visualization.mp4" := by rfl
  have h3 := h.2.2 "MKDTEMP/visualization.mp4" hres
  exact ⟨h.1, hres, h3.1, h3.2⟩

end AEOS
